import Mathlib

/-!
Shallow embedding of the search backend in src/app.py: the result data
model, the session cache, the three provider adapters with their mock
fallback, the dispatcher and the n8n endpoint, together with theorems
checking the specification claims about them.

External HTTP behaviour is modelled by a World value giving the outcome
each outbound call site would observe; the functions additionally return
the list of outbound calls they issue, so that claims about network
traffic and timeouts can be stated.
-/

namespace CoolApp

/-- Python `a or b` for strings: the left operand unless it is falsy (empty). -/
def pyOrStr (a b : String) : String := if a = "" then b else a

/-- Python slice `l[:n]` for an arbitrary (possibly negative) bound `n`:
a negative bound counts from the end of the list. -/
def pySliceTo {α : Type} (l : List α) (n : Int) : List α :=
  l.take (if 0 ≤ n then n.toNat else ((l.length : Int) + n).toNat)

/-- One search hit, as the dicts built in app.py
(lines 106-127, 151-159, 199-207, 272-280). -/
structure ResultRecord where
  title : String
  url : String
  snippet : String
  source : String
  language : String
  credibility_score : ℚ
  published_date : String
deriving DecidableEq

/-- The response envelope: either the success dict
`{status:"success", query, results_count, processing_time, results}`
or the error dict `{status:"error", message}`. -/
inductive Envelope where
  | success (query : String) (results_count : Nat) (processing_time : String)
      (results : List ResultRecord)
  | error (message : String)
deriving DecidableEq

/-- The `status` field of the envelope. -/
def Envelope.status : Envelope → String
  | .success _ _ _ _ => "success"
  | .error _ => "error"

/-- The `query` field of the envelope (absent on error envelopes). -/
def Envelope.queryField : Envelope → Option String
  | .success q _ _ _ => some q
  | .error _ => none

/-- The `results` field of the envelope (absent on error envelopes). -/
def Envelope.results : Envelope → List ResultRecord
  | .success _ _ _ rs => rs
  | .error _ => []

/-- Whether the `results_count` field equals the length of `results`
(trivially true for error envelopes, which carry neither field). -/
def Envelope.countOk : Envelope → Bool
  | .success _ n _ rs => n == rs.length
  | .error _ => true

/-- The three provider choices of the sidebar selectbox (app.py line 32). -/
inductive Provider where
  | free
  | google
  | baidu
deriving DecidableEq

/-- The provider's display string, as used in the cache key. -/
def Provider.name : Provider → String
  | .free => "Free Search API"
  | .google => "Google Search API"
  | .baidu => "Baidu Search API"

/-- Configuration: sidebar selections, advanced settings and environment
variables (app.py lines 32-56 plus the os.getenv reads in the adapters).
`today` stands for datetime.now().strftime("%Y-%m-%d") during the call. -/
structure Config where
  search_api : Provider
  timeout : Int
  cache_duration : Int
  rapidapi_key : String
  google_api_key : String
  env_google_api_key : String
  google_cx : String
  env_google_cx : String
  baidu_api_key : String
  env_baidu_api_key : String
  baidu_secret_key : String
  env_baidu_secret_key : String
  today : String
deriving DecidableEq

/-- Outcome of one outbound HTTP call: `exn` covers a raised request or a
body whose JSON parsing raises; `ok` carries the status code and parsed body. -/
inductive CallResult (α : Type) where
  | exn
  | ok (status_code : Int) (body : α)
deriving DecidableEq

/-- One entry of the DuckDuckGo RelatedTopics list; the has-flags model
dict key presence tested by `"Text" in topic and "FirstURL" in topic`. -/
structure Topic where
  hasText : Bool
  text : String
  hasFirstURL : Bool
  firstURL : String
deriving DecidableEq

/-- Parsed DuckDuckGo zero-click body. Keys whose .get default is "" or []
are identified with those defaults when absent; Heading keeps a presence
flag because its .get default is "Abstract". -/
structure DDGData where
  abstractText : String
  hasHeading : Bool
  heading : String
  abstractURL : String
  relatedTopics : List Topic
deriving DecidableEq

/-- One Google custom-search item (title/link/snippet, .get defaults ""). -/
structure GItem where
  title : String
  link : String
  snippet : String
deriving DecidableEq

/-- One Baidu result item (title/url/content, .get defaults ""). -/
structure BItem where
  title : String
  url : String
  content : String
deriving DecidableEq

/-- The external world: the outcome each outbound call site would observe. -/
structure World where
  ddg : CallResult DDGData
  googleSearch : CallResult (List GItem)
  baiduToken : CallResult Unit
  baiduSearch : CallResult (List BItem)
deriving DecidableEq

/-- The four outbound call sites a search can reach. -/
inductive CallSite where
  | ddg
  | googleSearch
  | baiduToken
  | baiduSearch
deriving DecidableEq

/-- One outbound HTTP call as issued: its site, the timeout argument the
code passes to requests (none when the call passes no timeout argument),
and the num / max-results parameter sent, when any. -/
structure HttpCall where
  site : CallSite
  timeout : Option Int
  num : Option Int
deriving DecidableEq

/-- search_fallback (app.py lines 143-167): deterministic mock results. -/
def search_fallback (cfg : Config) (query language : String) (max_results : Int) :
    Envelope :=
  let results := (List.range (min max_results 10).toNat).map (fun i =>
    { title := "Result " ++ toString (i+1) ++ " for \x27" ++ query ++ "\x27"
      url := "https://example.com/result" ++ toString (i+1)
      snippet := "This is a mock result " ++ toString (i+1) ++ " for the query \x27" ++
        query ++ "\x27. This is generated as a fallback when no search API is available."
      source := "mock"
      language := language
      credibility_score := 0.5
      published_date := cfg.today })
  Envelope.success query results.length "0.1s" results

/-- Title derivation for a related topic (app.py line 120): the part of
the text before the first " - " separator, the whole text when none
occurs. Python writes this as a containment test plus split; splitOn
yields the same first component in both cases. -/
def topicTitle (text : String) : String :=
  match text.splitOn " - " with
  | [] => text
  | t :: _ => t

/-- search_free_api (app.py lines 74-141): the DuckDuckGo zero-click
adapter. Returns the envelope and the outbound calls issued. -/
def search_free_api (cfg : Config) (w : World) (query language : String)
    (max_results : Int) : Envelope × List HttpCall :=
  if cfg.rapidapi_key = "" then
    (search_fallback cfg query language max_results, [])
  else
    let tr : List HttpCall :=
      [{ site := CallSite.ddg, timeout := some cfg.timeout, num := none }]
    match w.ddg with
    | CallResult.exn => (search_fallback cfg query language max_results, tr)
    | CallResult.ok code data =>
      if code = 200 then
        let abstractPart : List ResultRecord :=
          if data.abstractText ≠ "" then
            [{ title := if data.hasHeading then data.heading else "Abstract"
               url := data.abstractURL
               snippet := data.abstractText
               source := "duckduckgo"
               language := language
               credibility_score := 0.8
               published_date := cfg.today }]
          else []
        let topicRecs : List ResultRecord :=
          ((pySliceTo data.relatedTopics (max_results - 1)).filter
              (fun t => t.hasText && t.hasFirstURL)).map (fun t =>
            { title := topicTitle t.text
              url := t.firstURL
              snippet := t.text
              source := "duckduckgo"
              language := language
              credibility_score := 0.7
              published_date := cfg.today })
        let results := abstractPart ++ topicRecs
        (Envelope.success query results.length "1.0s" results, tr)
      else
        (search_fallback cfg query language max_results, tr)

/-- search_google_api (app.py lines 169-222): the commercial adapter. -/
def search_google_api (cfg : Config) (w : World) (query language : String)
    (max_results : Int) : Envelope × List HttpCall :=
  let api_key := pyOrStr cfg.google_api_key cfg.env_google_api_key
  let cx := pyOrStr cfg.google_cx cfg.env_google_cx
  if api_key = "" ∨ cx = "" then
    (search_fallback cfg query language max_results, [])
  else
    let tr : List HttpCall :=
      [{ site := CallSite.googleSearch, timeout := some cfg.timeout,
         num := some (min max_results 10) }]
    match w.googleSearch with
    | CallResult.exn => (search_fallback cfg query language max_results, tr)
    | CallResult.ok code items =>
      if code = 200 then
        let results := items.map (fun it =>
          { title := it.title
            url := it.link
            snippet := it.snippet
            source := "google"
            language := language
            credibility_score := 0.9
            published_date := cfg.today })
        (Envelope.success query results.length "1.0s" results, tr)
      else
        (search_fallback cfg query language max_results, tr)

/-- search_baidu_api (app.py lines 224-295): the regional adapter, a token
exchange followed by the search call. The token call (line 241) passes no
timeout argument. -/
def search_baidu_api (cfg : Config) (w : World) (query language : String)
    (max_results : Int) : Envelope × List HttpCall :=
  let api_key := pyOrStr cfg.baidu_api_key cfg.env_baidu_api_key
  let secret_key := pyOrStr cfg.baidu_secret_key cfg.env_baidu_secret_key
  if api_key = "" ∨ secret_key = "" then
    (search_fallback cfg query language max_results, [])
  else
    let tokenCall : HttpCall :=
      { site := CallSite.baiduToken, timeout := none, num := none }
    match w.baiduToken with
    | CallResult.exn => (search_fallback cfg query language max_results, [tokenCall])
    | CallResult.ok tcode _ =>
      if tcode ≠ 200 then
        (search_fallback cfg query language max_results, [tokenCall])
      else
        let searchCall : HttpCall :=
          { site := CallSite.baiduSearch, timeout := some cfg.timeout,
            num := some (min max_results 10) }
        match w.baiduSearch with
        | CallResult.exn =>
          (search_fallback cfg query language max_results, [tokenCall, searchCall])
        | CallResult.ok code items =>
          if code = 200 then
            let results := items.map (fun it =>
              { title := it.title
                url := it.url
                snippet := it.content
                source := "baidu"
                language := language
                credibility_score := 0.8
                published_date := cfg.today })
            (Envelope.success query results.length "1.0s" results,
             [tokenCall, searchCall])
          else
            (search_fallback cfg query language max_results, [tokenCall, searchCall])

/-- The session cache: the Python dict modelled as an association list in
which a new entry shadows older ones for the same key, matching dict
lookup and assignment observationally. -/
abbrev Cache := List (String × Int × Envelope)

/-- Raw dict access: the (timestamp, data) pair stored for the key, when
one is present. -/
def cache_find (cache : Cache) (key : String) : Option (Int × Envelope) :=
  match cache.find? (fun e => e.1 == key) with
  | some e => some e.2
  | none => none

/-- get_from_cache (app.py lines 63-68). -/
def get_from_cache (cfg : Config) (cache : Cache) (now : Int) (key : String) :
    Option Envelope :=
  match cache_find cache key with
  | some td => if now - td.1 < cfg.cache_duration * 60 then some td.2 else none
  | none => none

/-- save_to_cache (app.py lines 70-71). -/
def save_to_cache (cache : Cache) (now : Int) (key : String) (data : Envelope) :
    Cache :=
  (key, now, data) :: cache

/-- The cache key f-string of perform_search (app.py line 302). -/
def cache_key (cfg : Config) (query language : String) (max_results : Int) : String :=
  cfg.search_api.name ++ ":" ++ query ++ ":" ++ language ++ ":" ++ toString max_results

/-- perform_search (app.py lines 298-317). Returns the envelope, the cache
after the call and the outbound calls issued. Every envelope the code can
cache is a non-empty dict, hence truthy, so the hit test is an Option
match. The sources argument is accepted and unused, as in the source. -/
def perform_search (cfg : Config) (w : World) (cache : Cache) (now : Int)
    (query language : String) (sources : Option (List String)) (max_results : Int) :
    Envelope × Cache × List HttpCall :=
  let key := cache_key cfg query language max_results
  match get_from_cache cfg cache now key with
  | some cached => (cached, cache, [])
  | none =>
    let pr :=
      match cfg.search_api with
      | Provider.google => search_google_api cfg w query language max_results
      | Provider.baidu => search_baidu_api cfg w query language max_results
      | Provider.free => search_free_api cfg w query language max_results
    (pr.1, save_to_cache cache now key pr.1, pr.2)

/-- A request body as read by api_search_endpoint; none models an absent key. -/
structure RequestData where
  query : Option String
  language : Option String
  max_results : Option Int
  sources : Option (List String)
deriving DecidableEq

/-- api_search_endpoint (app.py lines 320-335). -/
def api_search_endpoint (cfg : Config) (w : World) (cache : Cache) (now : Int)
    (req : RequestData) : Envelope × Cache × List HttpCall :=
  let query := req.query.getD ""
  let language := req.language.getD "en"
  let max_results := req.max_results.getD 10
  let sources := req.sources.getD ["web"]
  if query = "" then
    (Envelope.error "Query parameter is required", cache, [])
  else
    perform_search cfg w cache now query language (some sources) max_results

/-- Caches reachable from the empty session cache by any sequence of
perform_search / api_search_endpoint invocations. -/
inductive ReachableCache : Cache → Prop where
  | empty : ReachableCache []
  | search (cfg : Config) (w : World) (cache : Cache) (now : Int)
      (query language : String) (sources : Option (List String)) (max_results : Int) :
      ReachableCache cache →
      ReachableCache (perform_search cfg w cache now query language sources max_results).2.1
  | api (cfg : Config) (w : World) (cache : Cache) (now : Int) (req : RequestData) :
      ReachableCache cache →
      ReachableCache (api_search_endpoint cfg w cache now req).2.1

/-- A configuration with the free provider selected and no credentials. -/
def cfgFree : Config :=
  { search_api := Provider.free
    timeout := 10
    cache_duration := 60
    rapidapi_key := ""
    google_api_key := ""
    env_google_api_key := ""
    google_cx := ""
    env_google_cx := ""
    baidu_api_key := ""
    env_baidu_api_key := ""
    baidu_secret_key := ""
    env_baidu_secret_key := ""
    today := "2026-10-12" }

/-- Free provider with a RapidAPI key configured. -/
def cfgFreeKey : Config := { cfgFree with rapidapi_key := "k" }

/-- Regional provider with both Baidu credentials configured. -/
def cfgBaidu : Config :=
  { cfgFree with
    search_api := Provider.baidu
    baidu_api_key := "k"
    baidu_secret_key := "s" }

/-- Commercial provider with key and engine id configured. -/
def cfgGoogle : Config :=
  { cfgFree with
    search_api := Provider.google
    google_api_key := "k"
    google_cx := "c" }

/-- A world in which every outbound call raises. -/
def wNone : World :=
  { ddg := CallResult.exn
    googleSearch := CallResult.exn
    baiduToken := CallResult.exn
    baiduSearch := CallResult.exn }

/-- A world whose DuckDuckGo call succeeds with no abstract and two
well-formed related topics, and whose other calls succeed with empty
result lists. -/
def wTopics : World :=
  { ddg := CallResult.ok 200
      { abstractText := ""
        hasHeading := false
        heading := ""
        abstractURL := ""
        relatedTopics :=
          [{ hasText := true, text := "t1", hasFirstURL := true, firstURL := "u1" },
           { hasText := true, text := "t2", hasFirstURL := true, firstURL := "u2" }] }
    googleSearch := CallResult.ok 200 []
    baiduToken := CallResult.ok 200 ()
    baiduSearch := CallResult.ok 200 [] }

/-- A well-formed success envelope echoing the given query. -/
def GoodResp (query : String) (e : Envelope) : Prop :=
  e.status = "success" ∧ e.queryField = some query ∧ e.countOk = true

/-- A cache entry that is a success envelope with a consistent count. -/
def EntrySC (e : String × Int × Envelope) : Prop :=
  e.2.2.status = "success" ∧ e.2.2.countOk = true

/-- The cache produced by one fallback search on the empty cache. -/
def cacheW : Cache := (perform_search cfgFree wNone [] 0 "q" "en" none 1).2.1

@[simp] lemma status_success (q : String) (n : Nat) (pt : String)
    (rs : List ResultRecord) : (Envelope.success q n pt rs).status = "success" := rfl

@[simp] lemma status_error (m : String) : (Envelope.error m).status = "error" := rfl

@[simp] lemma queryField_success (q : String) (n : Nat) (pt : String)
    (rs : List ResultRecord) : (Envelope.success q n pt rs).queryField = some q := rfl

@[simp] lemma results_success (q : String) (n : Nat) (pt : String)
    (rs : List ResultRecord) : (Envelope.success q n pt rs).results = rs := rfl

@[simp] lemma countOk_success (q : String) (n : Nat) (pt : String)
    (rs : List ResultRecord) : (Envelope.success q n pt rs).countOk = (n == rs.length) := rfl

lemma fallback_good (cfg : Config) (q l : String) (mr : Int) :
    GoodResp q (search_fallback cfg q l mr) := by
  refine ⟨rfl, rfl, ?_⟩
  simp [search_fallback]

lemma free_good (cfg : Config) (w : World) (q l : String) (mr : Int) :
    GoodResp q (search_free_api cfg w q l mr).1 := by
  simp only [search_free_api]
  repeat' split
  all_goals
    first
      | exact fallback_good cfg q l mr
      | exact ⟨rfl, rfl, by simp⟩

lemma google_good (cfg : Config) (w : World) (q l : String) (mr : Int) :
    GoodResp q (search_google_api cfg w q l mr).1 := by
  simp only [search_google_api]
  repeat' split
  all_goals
    first
      | exact fallback_good cfg q l mr
      | exact ⟨rfl, rfl, by simp⟩

lemma baidu_good (cfg : Config) (w : World) (q l : String) (mr : Int) :
    GoodResp q (search_baidu_api cfg w q l mr).1 := by
  simp only [search_baidu_api]
  repeat' split
  all_goals
    first
      | exact fallback_good cfg q l mr
      | exact ⟨rfl, rfl, by simp⟩

lemma provider_good (cfg : Config) (w : World) (q l : String) (mr : Int) :
    GoodResp q (match cfg.search_api with
      | Provider.google => search_google_api cfg w q l mr
      | Provider.baidu => search_baidu_api cfg w q l mr
      | Provider.free => search_free_api cfg w q l mr).1 := by
  cases cfg.search_api with
  | google => exact google_good cfg w q l mr
  | baidu => exact baidu_good cfg w q l mr
  | free => exact free_good cfg w q l mr

lemma get_from_cache_mem (cfg : Config) (cache : Cache) (now : Int) (key : String)
    (env : Envelope) (h : get_from_cache cfg cache now key = some env) :
    ∃ f ∈ cache, f.2.2 = env := by
  simp only [get_from_cache, cache_find] at h
  cases hf : cache.find? (fun e => e.1 == key) with
  | none => rw [hf] at h; exact absurd h (by simp)
  | some f =>
    rw [hf] at h
    have h2 : (if now - f.2.1 < cfg.cache_duration * 60 then some f.2.2 else none) =
        some env := h
    refine ⟨f, List.mem_of_find?_eq_some hf, ?_⟩
    by_cases hfr : now - f.2.1 < cfg.cache_duration * 60
    · rw [if_pos hfr] at h2
      exact Option.some_inj.mp h2
    · rw [if_neg hfr] at h2
      exact absurd h2 (by simp)

lemma perform_search_cache_pres (cfg : Config) (w : World) (cache : Cache)
    (now : Int) (q l : String) (sources : Option (List String)) (mr : Int)
    (ih : ∀ e ∈ cache, EntrySC e) :
    ∀ e ∈ (perform_search cfg w cache now q l sources mr).2.1, EntrySC e := by
  simp only [perform_search]
  cases hc : get_from_cache cfg cache now (cache_key cfg q l mr) with
  | some cached => simpa using ih
  | none =>
    intro e he
    simp only [save_to_cache, List.mem_cons] at he
    rcases he with he | he
    · subst he
      have hg := provider_good cfg w q l mr
      exact ⟨hg.1, hg.2.2⟩
    · exact ih e he

lemma reachable_sc (cache : Cache) (h : ReachableCache cache) :
    ∀ e ∈ cache, EntrySC e := by
  induction h with
  | empty => intro e he; exact absurd he (by simp)
  | search cfg w cache now q l sources mr _ ih =>
    exact perform_search_cache_pres cfg w cache now q l sources mr ih
  | api cfg w cache now req _ ih =>
    simp only [api_search_endpoint]
    by_cases hq : req.query.getD "" = ""
    · simpa [hq] using ih
    · rw [if_neg hq]
      exact perform_search_cache_pres cfg w cache now _ _ _ _ ih

lemma perform_search_good (cfg : Config) (w : World) (cache : Cache) (now : Int)
    (q l : String) (sources : Option (List String)) (mr : Int)
    (hreach : ReachableCache cache) :
    (perform_search cfg w cache now q l sources mr).1.status = "success" ∧
      (perform_search cfg w cache now q l sources mr).1.countOk = true := by
  simp only [perform_search]
  cases hc : get_from_cache cfg cache now (cache_key cfg q l mr) with
  | some cached =>
    obtain ⟨f, hf, hfe⟩ := get_from_cache_mem cfg cache now _ cached hc
    have hsc := reachable_sc cache hreach f hf
    exact ⟨hfe ▸ hsc.1, hfe ▸ hsc.2⟩
  | none =>
    have hg := provider_good cfg w q l mr
    exact ⟨hg.1, hg.2.2⟩

lemma fallback_length (cfg : Config) (q l : String) (mr : Int) :
    (search_fallback cfg q l mr).results.length = (min mr 10).toNat := by
  simp [search_fallback]

lemma fallback_no_07 (cfg : Config) (q l : String) (mr : Int) :
    (search_fallback cfg q l mr).results.filter
      (fun r => r.credibility_score == 0.7) = [] := by
  simp only [search_fallback, results_success]
  rw [List.filter_eq_nil_iff]
  intro a ha
  simp only [List.mem_map] at ha
  obtain ⟨i, _, rfl⟩ := ha
  simp only [beq_iff_eq]
  norm_num

lemma pySliceTo_length_le {α : Type} (l : List α) (n : Int) (hn : 0 ≤ n) :
    ((pySliceTo l n).length : Int) ≤ n := by
  simp only [pySliceTo, if_pos hn, List.length_take]
  omega

lemma append_filter_bound (pre tops : List ResultRecord) (p : ResultRecord → Bool)
    (hpre : pre.filter p = []) (n : Int) (htops : (tops.length : Int) ≤ n) :
    (((pre ++ tops).filter p).length : Int) ≤ n := by
  rw [List.filter_append, hpre, List.nil_append]
  have hle := List.length_filter_le p tops
  omega

lemma free_07_bound (cfg : Config) (w : World) (q l : String) (mr : Int)
    (h1 : 1 ≤ mr) :
    (((search_free_api cfg w q l mr).1.results.filter
        (fun r => r.credibility_score == 0.7)).length : Int) ≤ mr - 1 := by
  have hfb : (((search_fallback cfg q l mr).results.filter
      (fun r => r.credibility_score == 0.7)).length : Int) ≤ mr - 1 := by
    rw [fallback_no_07]
    simp only [List.length_nil]
    omega
  cases hw : w.ddg with
  | exn =>
    simp only [search_free_api, hw]
    split
    · exact hfb
    · exact hfb
  | ok code data =>
    simp only [search_free_api, hw]
    by_cases hk : cfg.rapidapi_key = ""
    · rw [if_pos hk]
      exact hfb
    · rw [if_neg hk]
      by_cases hc : code = 200
      · rw [if_pos hc]
        simp only [results_success]
        apply append_filter_bound
        · split
          · have h08 : (((0.8 : ℚ) == (0.7 : ℚ))) = false := by
              rw [beq_eq_false_iff_ne]
              norm_num
            simp [List.filter, h08]
          · rfl
        · rw [List.length_map]
          have hfil := List.length_filter_le (fun t => t.hasText && t.hasFirstURL)
            (pySliceTo data.relatedTopics (mr - 1))
          have hsl := pySliceTo_length_le data.relatedTopics (mr - 1) (by omega)
          omega
      · rw [if_neg hc]
        exact hfb

lemma google_len_bound (cfg : Config) (w : World) (q l : String) (mr : Int)
    (hg : ∀ code items, w.googleSearch = CallResult.ok code items →
      (items.length : Int) ≤ min mr 10) :
    ((search_google_api cfg w q l mr).1.results.length : Int) ≤ 10 := by
  have hfb : (((search_fallback cfg q l mr).results.length : Int)) ≤ 10 := by
    rw [fallback_length]
    omega
  cases hw : w.googleSearch with
  | exn =>
    simp only [search_google_api, hw]
    split
    · exact hfb
    · exact hfb
  | ok code items =>
    simp only [search_google_api, hw]
    split
    · exact hfb
    · split
      · simp only [results_success, List.length_map]
        have := hg code items hw
        omega
      · exact hfb

lemma baidu_len_bound (cfg : Config) (w : World) (q l : String) (mr : Int)
    (hb : ∀ code items, w.baiduSearch = CallResult.ok code items →
      (items.length : Int) ≤ min mr 10) :
    ((search_baidu_api cfg w q l mr).1.results.length : Int) ≤ 10 := by
  have hfb : (((search_fallback cfg q l mr).results.length : Int)) ≤ 10 := by
    rw [fallback_length]
    omega
  cases ht : w.baiduToken with
  | exn =>
    simp only [search_baidu_api, ht]
    split
    · exact hfb
    · exact hfb
  | ok tcode tbody =>
    cases hw : w.baiduSearch with
    | exn =>
      simp only [search_baidu_api, ht, hw]
      split
      · exact hfb
      · split
        · exact hfb
        · exact hfb
    | ok code items =>
      simp only [search_baidu_api, ht, hw]
      split
      · exact hfb
      · split
        · exact hfb
        · split
          · simp only [results_success, List.length_map]
            have := hb code items hw
            omega
          · exact hfb

/-- C1: for every non-empty query, the request handler returns an envelope
with status "success", for every provider selection, credential
configuration and outbound-call outcome, and so does perform_search
itself: every adapter failure path resolves to the mock fallback, which
always returns a success envelope. The cache hypothesis says the session
cache is one actually produced by the app, starting empty. -/
theorem C1_nonempty_query_success (cfg : Config) (w : World) (cache : Cache)
    (now : Int) (req : RequestData) (q l : String)
    (sources : Option (List String)) (mr : Int)
    (hreach : ReachableCache cache) (hq : req.query.getD "" ≠ "") :
    (api_search_endpoint cfg w cache now req).1.status = "success" ∧
      (perform_search cfg w cache now q l sources mr).1.status = "success" := by
  constructor
  · simp only [api_search_endpoint]
    rw [if_neg hq]
    exact (perform_search_good cfg w cache now _ _ _ _ hreach).1
  · exact (perform_search_good cfg w cache now q l sources mr hreach).1

theorem C1_witness :
    (some "x" : Option String).getD "" ≠ "" ∧
      (api_search_endpoint cfgFree wNone [] 0
        { query := some "x", language := none, max_results := none,
          sources := none }).1.status = "success" :=
  ⟨by decide,
    (C1_nonempty_query_success cfgFree wNone [] 0
      { query := some "x", language := none, max_results := none, sources := none }
      "x" "en" none 10 ReachableCache.empty (by decide)).1⟩

/-- C2: in every SearchResponse produced by the generic, commercial or
regional adapter, the mock fallback, or any perform_search call (cache
hits included, over any reachable cache), the results_count field equals
the length of the results list. -/
theorem C2_results_count_eq_length (cfg : Config) (w : World) (cache : Cache)
    (now : Int) (q l : String) (sources : Option (List String)) (mr : Int)
    (hreach : ReachableCache cache) :
    (search_free_api cfg w q l mr).1.countOk = true ∧
      (search_google_api cfg w q l mr).1.countOk = true ∧
      (search_baidu_api cfg w q l mr).1.countOk = true ∧
      (search_fallback cfg q l mr).countOk = true ∧
      (perform_search cfg w cache now q l sources mr).1.countOk = true :=
  ⟨(free_good cfg w q l mr).2.2, (google_good cfg w q l mr).2.2,
    (baidu_good cfg w q l mr).2.2, (fallback_good cfg q l mr).2.2,
    (perform_search_good cfg w cache now q l sources mr hreach).2⟩

theorem C2_witness :
    (search_fallback cfgFree "a" "en" 3).countOk = true :=
  (C2_results_count_eq_length cfgFree wNone [] 0 "a" "en" none 3
    ReachableCache.empty).2.2.2.1

/-- C3: for every request whose query is empty or absent,
api_search_endpoint returns exactly the error envelope with message
"Query parameter is required", issues no outbound HTTP call, and leaves
the cache unchanged. -/
theorem C3_empty_query_error (cfg : Config) (w : World) (cache : Cache)
    (now : Int) (req : RequestData) (hq : req.query.getD "" = "") :
    api_search_endpoint cfg w cache now req =
      (Envelope.error "Query parameter is required", cache, []) := by
  simp only [api_search_endpoint]
  rw [if_pos hq]

theorem C3_witness :
    (none : Option String).getD "" = "" ∧
      api_search_endpoint cfgFree wNone [] 0
        { query := none, language := none, max_results := none, sources := none } =
        (Envelope.error "Query parameter is required", [], []) :=
  ⟨by decide,
    C3_empty_query_error cfgFree wNone [] 0
      { query := none, language := none, max_results := none, sources := none }
      (by decide)⟩

/-- C4: a cache lookup returns the stored response exactly when the time
elapsed since its stored timestamp is strictly below the configured
duration (so a lookup never returns data older than the duration, and a
stale or missing entry behaves as a miss without being removed), and a
store unconditionally overwrites any prior entry for the key with the
current timestamp. -/
theorem C4_cache_semantics (cfg : Config) (cache : Cache) (now : Int)
    (key : String) (d : Envelope) :
    (∀ e, get_from_cache cfg cache now key = some e ↔
        ∃ ts, cache_find cache key = some (ts, e) ∧
          now - ts < cfg.cache_duration * 60) ∧
    cache_find (save_to_cache cache now key d) key = some (now, d) := by
  constructor
  · intro e
    cases hf : cache_find cache key with
    | none => simp [get_from_cache, hf]
    | some td =>
      have hsome : get_from_cache cfg cache now key =
          (if now - td.1 < cfg.cache_duration * 60 then some td.2 else none) := by
        simp [get_from_cache, hf]
      by_cases hfr : now - td.1 < cfg.cache_duration * 60
      · rw [hsome, if_pos hfr]
        constructor
        · intro he
          refine ⟨td.1, ?_, hfr⟩
          rw [← Option.some_inj.mp he]
        · rintro ⟨ts, hts, _⟩
          have h2 := Option.some_inj.mp hts
          rw [h2]
      · rw [hsome, if_neg hfr]
        constructor
        · intro h
          exact absurd h (by simp)
        · rintro ⟨ts, hts, hfresh⟩
          have h2 := Option.some_inj.mp hts
          have h1 : td.1 = ts := by rw [h2]
          exact absurd (by omega) hfr
  · rw [save_to_cache, cache_find, List.find?_cons_of_pos _ (by simp)]

/-- C5: the mock generator is a deterministic function of query and
max_results up to the current date: for every query and every
non-negative max_results it produces exactly min(max_results, 10)
records, the i-th (1-based) of which has title "Result i for 'query'",
url "https://example.com/resulti", source "mock" and credibility score
0.5, in order; and two calls with the same (query, max_results) yield
the same titles and urls in the same order whatever the language or
date. -/
theorem C5_mock_deterministic (cfg cfg2 : Config) (q l l2 : String) (mr : Int)
    (h : 0 ≤ mr) :
    (((search_fallback cfg q l mr).results.length : Int) = min mr 10) ∧
    (∀ i, ∀ hi : i < (search_fallback cfg q l mr).results.length,
      ((search_fallback cfg q l mr).results.get ⟨i, hi⟩).title =
          "Result " ++ toString (i+1) ++ " for \x27" ++ q ++ "\x27" ∧
      ((search_fallback cfg q l mr).results.get ⟨i, hi⟩).url =
          "https://example.com/result" ++ toString (i+1) ∧
      ((search_fallback cfg q l mr).results.get ⟨i, hi⟩).source = "mock" ∧
      ((search_fallback cfg q l mr).results.get ⟨i, hi⟩).credibility_score = 0.5) ∧
    ((search_fallback cfg q l mr).results.map ResultRecord.title =
        (search_fallback cfg2 q l2 mr).results.map ResultRecord.title) ∧
    ((search_fallback cfg q l mr).results.map ResultRecord.url =
        (search_fallback cfg2 q l2 mr).results.map ResultRecord.url) := by
  refine ⟨?_, ?_, ?_, ?_⟩
  · simp only [search_fallback, results_success, List.length_map, List.length_range]
    omega
  · intro i hi
    simp only [search_fallback, results_success] at hi ⊢
    refine ⟨?_, ?_, ?_, ?_⟩ <;>
      simp [List.get_eq_getElem, List.getElem_map, List.getElem_range]
  · simp only [search_fallback, results_success, List.map_map]
    rfl
  · simp only [search_fallback, results_success, List.map_map]
    rfl

theorem C5_witness :
    (0 : Int) ≤ 3 ∧ ((search_fallback cfgFree "a" "en" 3).results.length : Int) =
      min (3 : Int) 10 :=
  ⟨by decide,
    (C5_mock_deterministic cfgFree cfgFreeKey "a" "en" "fr" 3 (by decide)).1⟩

/-- C6 counterexample: at max_results = 0 the related-topics slice
[:max_results - 1] is the Python negative slice [:-1], which keeps every
related topic but the last, so with a configured key, a 200 response, no
abstract and two well-formed related topics the generic adapter returns
one record, exceeding the claimed bound of max_results - 1 related-topic
records plus the optional abstract record. -/
theorem C6_clamping_counterexample :
    ¬ (((search_free_api cfgFreeKey wTopics "q" "en" 0).1.results.length : Int) ≤
        ((0 : Int) - 1) + 1) := by decide

/-- C6 amended: for every query and every max_results ≥ 1 the generic
adapter yields at most max_results - 1 related-topic records (identified
by their 0.7 credibility score) besides the optional abstract record;
the commercial and regional adapters request num = min(max_results, 10)
≤ 10 and, when the provider returns at most the requested number of
items, yield at most 10 results on every path. -/
theorem C6_clamping_amended (cfg : Config) (w : World) (q l : String) (mr : Int)
    (h1 : 1 ≤ mr)
    (hg : ∀ code items, w.googleSearch = CallResult.ok code items →
      (items.length : Int) ≤ min mr 10)
    (hb : ∀ code items, w.baiduSearch = CallResult.ok code items →
      (items.length : Int) ≤ min mr 10) :
    (((search_free_api cfg w q l mr).1.results.filter
        (fun r => r.credibility_score == 0.7)).length : Int) ≤ mr - 1 ∧
    ((search_google_api cfg w q l mr).1.results.length : Int) ≤ 10 ∧
    ((search_baidu_api cfg w q l mr).1.results.length : Int) ≤ 10 ∧
    min mr 10 ≤ (10 : Int) :=
  ⟨free_07_bound cfg w q l mr h1, google_len_bound cfg w q l mr hg,
    baidu_len_bound cfg w q l mr hb, by omega⟩

theorem C6_witness :
    (1 : Int) ≤ 50 ∧ min (50 : Int) 10 ≤ 10 :=
  ⟨by decide,
    (C6_clamping_amended cfgGoogle wTopics "q" "en" 50 (by decide)
      (by
        intro c i hok
        cases hok
        simp only [List.length_nil, Nat.cast_zero]
        omega)
      (by
        intro c i hok
        cases hok
        simp only [List.length_nil, Nat.cast_zero]
        omega)).2.2.2⟩

/-- C7 counterexample: the cache key is the colon-joined string
"provider:query:language:max_results", so the request (query "x:en",
language "fr") and the request (query "x", language "en:fr") share one
key; after the first populates the cache, the second gets a cache hit
whose query field is "x:en", not its own query "x". -/
theorem C7_query_echo_counterexample :
    ¬ ((perform_search cfgFree wNone
          (perform_search cfgFree wNone [] 0 "x:en" "fr" none 1).2.1
          1 "x" "en:fr" none 1).1.queryField = some "x") := by decide

/-- C7 amended: whenever the response is computed fresh (no cache hit for
the request key), its query field equals the request query, for every
provider, world, language and max_results; a cache hit returns the
stored envelope unchanged, so its query field is the query of the
request that stored it, which can differ from the current request query
when colons in the query or language make distinct requests collide on
one cache key. -/
theorem C7_query_echo_amended (cfg : Config) (w : World) (cache : Cache)
    (now : Int) (q l : String) (sources : Option (List String)) (mr : Int) :
    (get_from_cache cfg cache now (cache_key cfg q l mr) = none →
      (perform_search cfg w cache now q l sources mr).1.queryField = some q) ∧
    (∀ e, get_from_cache cfg cache now (cache_key cfg q l mr) = some e →
      (perform_search cfg w cache now q l sources mr).1 = e) := by
  constructor
  · intro hmiss
    simp only [perform_search, hmiss]
    exact (provider_good cfg w q l mr).2.1
  · intro e he
    simp only [perform_search, he]

theorem C7_witness :
    (perform_search cfgFree wNone [] 0 "x" "en" none 10).1.queryField = some "x" :=
  (C7_query_echo_amended cfgFree wNone [] 0 "x" "en" none 10).1 (by decide)

lemma free_trace (cfg : Config) (w : World) (q l : String) (mr : Int) :
    ∀ c ∈ (search_free_api cfg w q l mr).2, c.timeout = some cfg.timeout := by
  cases hw : w.ddg with
  | exn =>
    simp only [search_free_api, hw]
    split
    · simp
    · intro c hc
      simp only [List.mem_singleton] at hc
      rw [hc]
  | ok code data =>
    simp only [search_free_api, hw]
    split
    · simp
    · split
      · intro c hc
        simp only [List.mem_singleton] at hc
        rw [hc]
      · intro c hc
        simp only [List.mem_singleton] at hc
        rw [hc]

lemma google_trace (cfg : Config) (w : World) (q l : String) (mr : Int) :
    ∀ c ∈ (search_google_api cfg w q l mr).2, c.timeout = some cfg.timeout := by
  cases hw : w.googleSearch with
  | exn =>
    simp only [search_google_api, hw]
    split
    · simp
    · intro c hc
      simp only [List.mem_singleton] at hc
      rw [hc]
  | ok code items =>
    simp only [search_google_api, hw]
    split
    · simp
    · split
      · intro c hc
        simp only [List.mem_singleton] at hc
        rw [hc]
      · intro c hc
        simp only [List.mem_singleton] at hc
        rw [hc]

lemma baidu_trace (cfg : Config) (w : World) (q l : String) (mr : Int) :
    ∀ c ∈ (search_baidu_api cfg w q l mr).2, c.site ≠ CallSite.baiduToken →
      c.timeout = some cfg.timeout := by
  have htok : ∀ c : HttpCall,
      c = { site := CallSite.baiduToken, timeout := none, num := none } →
      c.site ≠ CallSite.baiduToken → c.timeout = some cfg.timeout := by
    intro c hc hsite
    rw [hc] at hsite
    exact absurd rfl hsite
  have hsrch : ∀ c : HttpCall,
      c = { site := CallSite.baiduSearch, timeout := some cfg.timeout,
            num := some (min mr 10) } →
      c.timeout = some cfg.timeout := by
    intro c hc
    rw [hc]
  cases ht : w.baiduToken with
  | exn =>
    simp only [search_baidu_api, ht]
    split
    · simp
    · intro c hc
      simp only [List.mem_singleton] at hc
      exact htok c hc
  | ok tcode tbody =>
    cases hw : w.baiduSearch with
    | exn =>
      simp only [search_baidu_api, ht, hw]
      split
      · simp
      · split
        · intro c hc
          simp only [List.mem_singleton] at hc
          exact htok c hc
        · intro c hc
          rcases List.mem_cons.mp hc with hc | hc
          · exact htok c hc
          · simp only [List.mem_singleton] at hc
            intro _
            exact hsrch c hc
    | ok code items =>
      simp only [search_baidu_api, ht, hw]
      split
      · simp
      · split
        · intro c hc
          simp only [List.mem_singleton] at hc
          exact htok c hc
        · split
          · intro c hc
            rcases List.mem_cons.mp hc with hc | hc
            · exact htok c hc
            · simp only [List.mem_singleton] at hc
              intro _
              exact hsrch c hc
          · intro c hc
            rcases List.mem_cons.mp hc with hc | hc
            · exact htok c hc
            · simp only [List.mem_singleton] at hc
              intro _
              exact hsrch c hc

lemma perform_search_trace (cfg : Config) (w : World) (cache : Cache) (now : Int)
    (q l : String) (sources : Option (List String)) (mr : Int) :
    ∀ c ∈ (perform_search cfg w cache now q l sources mr).2.2,
      c.site ≠ CallSite.baiduToken → c.timeout = some cfg.timeout := by
  simp only [perform_search]
  cases hc : get_from_cache cfg cache now (cache_key cfg q l mr) with
  | some cached => simp
  | none =>
    cases hp : cfg.search_api with
    | google =>
      intro c hm hs
      exact google_trace cfg w q l mr c hm
    | baidu =>
      intro c hm hs
      exact baidu_trace cfg w q l mr c hm hs
    | free =>
      intro c hm hs
      exact free_trace cfg w q l mr c hm

/-- C8 counterexample: with Baidu credentials configured, the regional
adapter's token-exchange call (app.py line 241) is issued with no
timeout argument, so not every outbound call of the search carries the
configured per-call timeout. -/
theorem C8_timeout_counterexample :
    ¬ (∀ c ∈ (perform_search cfgBaidu wNone [] 0 "q" "en" none 10).2.2,
        c.timeout = some cfgBaidu.timeout) := by decide

/-- C8 amended: every outbound HTTP call performed during a search other
than the regional adapter's token-exchange call is issued with the
configured per-call timeout as its ceiling; the token-exchange call is
issued with no timeout at all. -/
theorem C8_timeout_amended (cfg : Config) (w : World) (cache : Cache) (now : Int)
    (q l : String) (sources : Option (List String)) (mr : Int) :
    ∀ c ∈ (perform_search cfg w cache now q l sources mr).2.2,
      c.site ≠ CallSite.baiduToken → c.timeout = some cfg.timeout :=
  perform_search_trace cfg w cache now q l sources mr

theorem C8_witness :
    ({ site := CallSite.ddg, timeout := some (10 : Int), num := none } : HttpCall) ∈
        (perform_search cfgFreeKey wNone [] 0 "q" "en" none 10).2.2 ∧
      ({ site := CallSite.ddg, timeout := some (10 : Int), num := none } :
        HttpCall).timeout = some cfgFreeKey.timeout :=
  ⟨by decide,
    C8_timeout_amended cfgFreeKey wNone [] 0 "q" "en" none 10
      { site := CallSite.ddg, timeout := some (10 : Int), num := none }
      (by decide) (by decide)⟩

/-- C9: a request body with no query key is handled identically to one
whose query is the empty string: both produce the error envelope with
message "Query parameter is required", because the absent key defaults
to the empty string before the emptiness check. -/
theorem C9_absent_query_like_empty (cfg : Config) (w : World) (cache : Cache)
    (now : Int) (language : Option String) (mro : Option Int)
    (sources : Option (List String)) :
    api_search_endpoint cfg w cache now
        { query := none, language := language, max_results := mro,
          sources := sources } =
      api_search_endpoint cfg w cache now
        { query := some "", language := language, max_results := mro,
          sources := sources } ∧
    (api_search_endpoint cfg w cache now
        { query := none, language := language, max_results := mro,
          sources := sources }).1 =
      Envelope.error "Query parameter is required" := by
  constructor <;> simp [api_search_endpoint]

/-- C10: over any cache reachable by a sequence of search operations from
the empty cache, every stored value is a success envelope, and hence a
cache hit can never return an envelope with status "error". -/
theorem C10_cache_entries_success (cfg : Config) (cache : Cache) (now : Int)
    (key : String) (hreach : ReachableCache cache) :
    (∀ e ∈ cache, (e.2.2).status = "success") ∧
    (∀ env, get_from_cache cfg cache now key = some env →
      env.status = "success") := by
  constructor
  · intro e he
    exact (reachable_sc cache hreach e he).1
  · intro env h
    obtain ⟨f, hf, hfe⟩ := get_from_cache_mem cfg cache now key env h
    exact hfe ▸ (reachable_sc cache hreach f hf).1

theorem C10_witness :
    ((cache_key cfgFree "q" "en" 1, (0 : Int),
        search_fallback cfgFree "q" "en" 1) : String × Int × Envelope).2.2.status =
      "success" :=
  (C10_cache_entries_success cfgFree cacheW 0 ""
      (ReachableCache.search cfgFree wNone [] 0 "q" "en" none 1
        ReachableCache.empty)).1
    (cache_key cfgFree "q" "en" 1, (0 : Int), search_fallback cfgFree "q" "en" 1)
    (List.Mem.head _)

end CoolApp
